import Mathlib

/-!
Verification of the admin console for the TheLifeSavers diagnostics platform.

This file gives a shallow embedding, in Lean 4, of the pure computational
content of the repository: response-shape normalization of the list
endpoints, the filter / paginate / count derivations of the partner-request
hook, the approve / reject / onboard state transitions, the
`includedTests` wire-format decoding of the lab-onboarding page, and the
Authorization-header construction of the two client styles (axios-based
modules and the fetch-based partners service).

Strings are modelled with Lean `String`, but every operation on them is
defined through the underlying character list (`String.data`) so that all
definitions evaluate inside the kernel.  JavaScript truthiness on strings
(empty string is falsy) and on optional values (undefined / null are
falsy) is modelled explicitly.
-/

/-! ## Shared string helpers (models of the JavaScript primitives used) -/

/-- Model of JavaScript `String.prototype.toLowerCase` (ASCII range, which
is all the code relies on). -/
def jsToLower (s : String) : String := String.mk (s.data.map Char.toLower)

/-- Character-list trim used to model `String.prototype.trim`. -/
def trimList (l : List Char) : List Char :=
  ((l.dropWhile Char.isWhitespace).reverse.dropWhile Char.isWhitespace).reverse

/-- Model of JavaScript `String.prototype.trim`. -/
def jsTrim (s : String) : String := String.mk (trimList s.data)

/-- Model of JavaScript `String.prototype.includes`: substring test. -/
def strContains (s sub : String) : Bool := decide (sub.data <:+: s.data)

/-- JavaScript truthiness of a possibly-absent string: `undefined`, `null`
and the empty string are falsy. -/
def strTruthy (o : Option String) : Bool :=
  match o with
  | some s => !s.data.isEmpty
  | none => false

/-- Model of the JavaScript expression `a || b` on possibly-absent
strings: the left operand when it is truthy, otherwise the right one. -/
def jsOr (a b : Option String) : Option String := if strTruthy a then a else b

/-- Model of `a || d` where the default `d` is a present string: the
left operand when truthy, otherwise the default. -/
def jsOrD (a : Option String) (d : String) : String :=
  match a with
  | some s => if s.data.isEmpty then d else s
  | none => d

/-- Model of the `x ?? ""` defaulting used in the filter code. -/
def optStr (o : Option String) : String := o.getD ""

/-! ## C1 — list-response normalization (part_000 `fetchPromosFromApi`,
LabOnboarding `fetchLabsFromApi`)

Response bodies are modelled by a small JSON value type; the records held
by the list are arbitrary JSON values. -/

/-- JSON values, as delivered by `res.data` / `res.json()`. -/
inductive Json where
  | null
  | bool (b : Bool)
  | num (n : Int)
  | str (s : String)
  | arr (elems : List Json)
  | obj (fields : List (String × Json))

/-- Model of the optional-chaining property access `data?.<key>`: a
property lookup on an object, `undefined` (here `none`) on every other
value. -/
def Json.getField : Json → String → Option Json
  | .obj fields, key => fields.lookup key
  | _, _ => none

/-- The response normalization shared by `fetchPromosFromApi` (part_000
lines 61-69) and `fetchLabsFromApi` (LabOnboarding.tsx lines 82-89):

  if (Array.isArray(data)) return data;
  if (data?.KEY && Array.isArray(data.KEY)) return data.KEY;
  return [];

The JavaScript guard `data?.KEY && Array.isArray(data.KEY)` holds exactly
when the property is present and is an array, because every array
(including the empty one) is truthy; the match below expresses that
combined condition. -/
def listNorm (key : String) (data : Json) : List Json :=
  match data with
  | .arr xs => xs
  | _ =>
    match data.getField key with
    | some (.arr xs) => xs
    | _ => []

/-- Normalization performed by `fetchPromosFromApi` on the body of
`GET /promocodes` (part_000 lines 61-69). -/
def fetchPromosFromApi (body : Json) : List Json := listNorm ("promos") body

/-- Normalization performed by `fetchLabsFromApi` on the body of
`GET /labs` (LabOnboarding.tsx lines 82-89). -/
def fetchLabsFromApi (body : Json) : List Json := listNorm ("labs") body

/-! ## C2 — pagination (usePartnerRequests.ts lines 82-83, part_001
lines 221-222) -/

/-- Model of `Array.prototype.slice(start, stop)` for the non-negative
indices the code uses. -/
def jsSlice {α : Type} (l : List α) (start stop : Nat) : List α :=
  (l.drop start).take (stop - start)

/-- The fixed page size of the partner-requests page. -/
def pageSize : Nat := 8

/-- `totalPages = Math.max(1, Math.ceil(filtered.length / pageSize))`;
`Math.ceil` of the exact rational division is the rounded-up natural
division `(len + pageSize - 1) / pageSize`. -/
def totalPages {α : Type} (filtered : List α) : Nat :=
  max 1 ((filtered.length + pageSize - 1) / pageSize)

/-- `pageItems = filtered.slice((page - 1) * pageSize, page * pageSize)`. -/
def pageItems {α : Type} (filtered : List α) (page : Nat) : List α :=
  jsSlice filtered ((page - 1) * pageSize) (page * pageSize)

/-- Concatenation, in order, of the item slices of pages 1 through
`totalPages` (the quantity the spec constrains). -/
def pagesConcat {α : Type} (filtered : List α) : List α :=
  ((List.range (totalPages filtered)).map (fun i => pageItems filtered (i + 1))).flatten

/-! ## Partner-request data model (src/services/partnersService.ts,
part_003 lines 5-21) -/

/-- The `PartnerRequest` record type of the partners service.  `firstName`
is modelled as optional to honour the defensive `it.firstName ?? ""`
reads in the filter code; `status` is modelled as an optional raw string
so that records whose runtime status is absent or outside the declared
union can be expressed. -/
structure PartnerRequest where
  id : String := ""
  firstName : Option String := none
  lastName : Option String := none
  email : Option String := none
  mobile : Option String := none
  dob : Option String := none
  gender : Option String := none
  partnerType : Option String := none
  specifyCategory : Option String := none
  shopName : Option String := none
  pincode : Option String := none
  address : Option String := none
  status : Option String := none
  createdAt : Option String := none
  updatedAt : Option String := none
deriving DecidableEq, Repr

/-! ## C3 — filtering (usePartnerRequests.ts lines 64-80, part_001
lines 203-219) -/

/-- The per-record query predicate of the `filtered` memo:

  const name = `${it.firstName ?? ""} ${it.lastName ?? ""}`.toLowerCase();
  return (
    name.includes(q) ||
    (it.email ?? "").toLowerCase().includes(q) ||
    (it.mobile ?? "").toLowerCase().includes(q) ||
    (it.shopName ?? "").toLowerCase().includes(q)
  );

where `q` is the already trimmed-and-lowercased query. -/
def matchesQuery (q : String) (it : PartnerRequest) : Bool :=
  let name := jsToLower (optStr it.firstName ++ " " ++ optStr it.lastName)
  strContains name q ||
  strContains (jsToLower (optStr it.email)) q ||
  strContains (jsToLower (optStr it.mobile)) q ||
  strContains (jsToLower (optStr it.shopName)) q

/-- The `filtered` derivation of the hook (and, identically, of
PartnersRequestPage):

  const q = query.trim().toLowerCase();
  let list = items;
  if (selectedStatus !== "ALL") list = list.filter((it) => it.status === selectedStatus);
  if (!q) return list;
  return list.filter(...);
-/
def filtered (items : List PartnerRequest) (query : String)
    (selectedStatus : String) : List PartnerRequest :=
  let q := jsToLower (jsTrim query)
  let list :=
    if selectedStatus ≠ "ALL" then
      items.filter (fun it => it.status == some selectedStatus)
    else items
  if q.data.isEmpty then list else list.filter (matchesQuery q)

/-- Spec-side predicate, from the words of the claim: the record's name,
email, mobile or shop field contains the query case-insensitively (the
name being the displayed `firstName lastName` pairing the record is
searched under). -/
def specFieldContainsCI (field query : String) : Bool :=
  strContains (jsToLower field) (jsToLower query)

/-- Spec-side record predicate: some searched field contains the query
case-insensitively. -/
def specMatches (query : String) (it : PartnerRequest) : Bool :=
  specFieldContainsCI (optStr it.firstName ++ " " ++ optStr it.lastName) query ||
  specFieldContainsCI (optStr it.email) query ||
  specFieldContainsCI (optStr it.mobile) query ||
  specFieldContainsCI (optStr it.shopName) query

/-! ## C4 / C5 / C7 — approve and reject (usePartnerRequests.ts
lines 108-139, part_001 lines 225-265) -/

/-- The two status-mutating actions. -/
inductive ActionType where
  | approve
  | reject
deriving DecidableEq, Repr

/-- The status string an action writes:
`type === "approve" ? "ACCEPTED" : "REJECTED"`. -/
def statusFor : ActionType → String
  | .approve => "ACCEPTED"
  | .reject => "REJECTED"

/-- The list update performed on success (usePartnerRequests.ts
lines 121-125, part_001 lines 250-254):

  prev.map((it) => it.id === id ? { ...it, status: ... } : it)
-/
def applyActionToItems (items : List PartnerRequest) (id : String)
    (ty : ActionType) : List PartnerRequest :=
  items.map (fun it =>
    if it.id == id then { it with status := some (statusFor ty) } else it)

/-- A pending confirmation, as captured by `askConfirm`. -/
structure PendingAction where
  id : String
  type : ActionType
  name : Option String := none
deriving DecidableEq, Repr

/-- The slice of hook state read and written by the approve / reject and
confirmation flow. -/
structure HookState where
  items : List PartnerRequest := []
  actionLoadingId : Option String := none
  confirmLoading : Bool := false
  confirmOpen : Bool := false
  pendingAction : Option PendingAction := none
deriving DecidableEq, Repr

/-- Outcome of a service call, as observed by the caller: a parsed JSON
value, a falsy result (`null` / `undefined`), or a thrown transport
error (network failure or the non-2xx branch that throws before
returning). -/
inductive ServiceResult (α : Type) where
  | ok (val : α)
  | missing
  | thrown
deriving DecidableEq, Repr

/-- Body of the approve / reject response, as far as the caller inspects
it (`res.success`, `res.message`). -/
structure ActionResp where
  success : Bool
  message : Option String := none
deriving DecidableEq, Repr

/-- State transition of `performAction(id, type)` (usePartnerRequests.ts
lines 108-139).  The body first sets `confirmLoading` and
`actionLoadingId`, updates `items` only when a truthy response with
`success` not equal to `false` arrives (every other outcome throws and
is caught), and the `finally` block always clears `confirmLoading`,
`actionLoadingId`, `confirmOpen` and `pendingAction`. -/
def performAction (s : HookState) (id : String) (ty : ActionType)
    (res : ServiceResult ActionResp) : HookState :=
  let s1 := { s with confirmLoading := true, actionLoadingId := some id }
  let s2 :=
    match res with
    | .ok r => if r.success then { s1 with items := applyActionToItems s1.items id ty } else s1
    | _ => s1
  { s2 with confirmLoading := false, actionLoadingId := none,
            confirmOpen := false, pendingAction := none }

/-- `askConfirm` (usePartnerRequests.ts lines 102-105, part_001
lines 268-271). -/
def askConfirm (s : HookState) (id : String) (ty : ActionType)
    (name : Option String) : HookState :=
  { s with pendingAction := some { id := id, type := ty, name := name },
           confirmOpen := true }

/-- The cancel handler of the confirm modal in PartnersRequestPage
(part_001 line 772): `onCancel={() => { setConfirmOpen(false);
setPendingAction(null); }}`. -/
def cancelConfirmPart001 (s : HookState) : HookState :=
  { s with confirmOpen := false, pendingAction := none }

/-- The cancel handler of the confirm modal in partnersRequest.tsx
line 497: `onClick={() => { hook.setConfirmOpen(false); }}` — it closes
the dialog but does not clear `pendingAction`. -/
def cancelConfirmHookPage (s : HookState) : HookState :=
  { s with confirmOpen := false }

/-! ## C6 / C7 — onboarding a partner request (usePartnerRequests.ts
lines 142-175) -/

/-- The `OnboardForm` payload type (part_003 lines 28-40). -/
structure OnboardForm where
  firstName : String
  lastName : Option String := none
  email : String
  password : String
  mobile : String
  dob : Option String := none
  gender : Option String := none
  partnerType : String
  shopName : Option String := none
  pincode : Option String := none
  address : Option String := none
deriving DecidableEq, Repr

/-- The `request` object echoed by `POST /partners/register`, as far as
the client reads it (`id`, `_id`, `email`, `status`), plus the
`firstName` the server may echo (never read by the client). `mongoId`
models the `_id` property. -/
structure ServerRequest where
  id : Option String := none
  mongoId : Option String := none
  email : Option String := none
  status : Option String := none
  firstName : Option String := none
deriving DecidableEq, Repr

/-- The response envelope of `createPartnerOnboard`:
`{ success, message?, request? }`. -/
structure OnboardJson where
  success : Bool
  message : Option String := none
  request : Option ServerRequest := none
deriving DecidableEq, Repr

/-- The locally constructed record of `onboardSubmit`
(usePartnerRequests.ts lines 150-162): `id`, `email` and `status` come
from the server echo (with `||` fallbacks, `rand` standing for the
`Math.random()` id and `now` for `new Date().toISOString()`), every
other populated field comes from the submitted form data. -/
def mkNewRequest (data : OnboardForm) (request : Option ServerRequest)
    (rand now : String) : PartnerRequest :=
  { id := jsOrD (request.bind ServerRequest.id)
            (jsOrD (request.bind ServerRequest.mongoId) rand),
    email := request.bind ServerRequest.email,
    status := some (jsOrD (request.bind ServerRequest.status) ("PENDING")),
    createdAt := some now,
    firstName := some data.firstName,
    lastName := data.lastName,
    partnerType := some data.partnerType,
    shopName := data.shopName,
    mobile := some data.mobile,
    pincode := data.pincode,
    address := data.address }

/-- Effect of `onboardSubmit` on the `items` list
(usePartnerRequests.ts lines 142-175): on a truthy response whose
`success` is not `false` the new record is prepended
(`setItems((prev) => [newReq, ...prev])`); every other outcome throws
before the update and leaves the list alone. -/
def onboardSubmit (prev : List PartnerRequest) (data : OnboardForm)
    (res : ServiceResult OnboardJson) (rand now : String) : List PartnerRequest :=
  match res with
  | .ok json =>
    if json.success then mkNewRequest data json.request rand now :: prev else prev
  | _ => prev

/-! ## C6 / C7 — promo creation (part_000 lines 137-195) -/

/-- The client-side `PromoItem` record (part_000 lines 20-34).  `id` is
optional here because the construction `res.promo.id || res.promo._id`
can itself produce `undefined`. -/
structure PromoItem where
  id : Option String := none
  code : String := ""
  description : Option String := none
  discountType : String := ""
  amount : Int := 0
  maxDiscount : Option Int := none
  minOrderAmount : Option Int := none
  startsAt : Option String := none
  expiresAt : Option String := none
  isActive : Option Bool := none
  usageLimit : Option Int := none
  usedCount : Option Int := none
  createdAt : Option String := none
deriving DecidableEq, Repr

/-- The `promo` object of the `POST /promocodes` response, as read by
the success branch of `onSubmit`. -/
structure ServerPromo where
  id : Option String := none
  mongoId : Option String := none
  code : String := ""
  description : Option String := none
  discountType : String := ""
  amount : Option Int := none
  maxDiscount : Option Int := none
  minOrderAmount : Option Int := none
  startsAt : Option String := none
  expiresAt : Option String := none
  isActive : Option Bool := none
  usageLimit : Option Int := none
  usedCount : Option Int := none
  createdAt : Option String := none
deriving DecidableEq, Repr

/-- The `POST /promocodes` response envelope `{ success, message?, promo? }`. -/
structure PromoResp where
  success : Bool
  message : Option String := none
  promo : Option ServerPromo := none
deriving DecidableEq, Repr

/-- The locally constructed promo card (part_000 lines 156-170): every
field is taken from the server-returned `res.promo` (`amount` through
`Number(...) || 0`, which on a missing amount yields 0). -/
def mkPromoItem (pr : ServerPromo) : PromoItem :=
  { id := jsOr pr.id pr.mongoId,
    code := pr.code,
    description := pr.description,
    discountType := pr.discountType,
    amount := pr.amount.getD 0,
    maxDiscount := pr.maxDiscount,
    minOrderAmount := pr.minOrderAmount,
    startsAt := pr.startsAt,
    expiresAt := pr.expiresAt,
    isActive := pr.isActive,
    usageLimit := pr.usageLimit,
    usedCount := pr.usedCount,
    createdAt := pr.createdAt }

/-- Effect of the promo `onSubmit` on the `promos` list (part_000
lines 137-195): `if (res?.success && res?.promo)` prepends the new card
(`setPromos((prev) => [p, ...prev])`); the else branch and the catch
branch only toast. -/
def promoOnSubmit (prev : List PromoItem) (res : ServiceResult PromoResp) :
    List PromoItem :=
  match res with
  | .ok r =>
    match r.promo with
    | some pr => if r.success then mkPromoItem pr :: prev else prev
    | none => prev
  | _ => prev

/-! ## Lab data model and C6 — lab creation (LabOnboarding.tsx
lines 9-62 and 223-262) -/

/-- Wire form of the `includedTests` field of a package: either an array
of strings or a raw string (`string | string[]` in the source,
"server returns a stringified array sometimes"). -/
inductive IncludedTestsWire where
  | arr (tests : List String)
  | str (raw : String)
deriving DecidableEq, Repr

/-- The `PackageItem` record (LabOnboarding.tsx lines 16-26). -/
structure PackageItem where
  id : String := ""
  labId : String := ""
  name : String := ""
  includedTests : Option IncludedTestsWire := none
  totalParams : Option Int := none
  mrp : Option Int := none
  discounted : Option Int := none
  preparation : Option String := none
  reportTime : Option String := none
deriving DecidableEq, Repr

/-- The `TestItem` record (LabOnboarding.tsx lines 28-38). -/
structure TestItem where
  id : String := ""
  labId : String := ""
  name : String := ""
  code : Option String := none
  parameters : Option Int := none
  mrp : Option Int := none
  discounted : Option Int := none
  preparation : Option String := none
  reportTime : Option String := none
deriving DecidableEq, Repr

/-- The `LabItem` record (LabOnboarding.tsx lines 40-51). -/
structure LabItem where
  id : String := ""
  name : String := ""
  imageUrl : Option String := none
  address : Option String := none
  rating : Option Int := none
  isActive : Option Bool := none
  createdAt : Option String := none
  updatedAt : Option String := none
  packages : Option (List PackageItem) := none
  tests : Option (List TestItem) := none
deriving DecidableEq, Repr

/-- The `POST /labs` response envelope (LabOnboarding.tsx lines 53-57);
`lab` is optional because the success branch tests `if (res.lab)`. -/
structure PostLabResponse where
  success : Bool
  message : Option String := none
  lab : Option LabItem := none
deriving DecidableEq, Repr

/-- Effect of the lab `onSubmit` on the `labs` list (LabOnboarding.tsx
lines 234-241): on success with a `lab` in the response it is prepended
verbatim (`setLabs((prev) => [res.lab, ...prev])`); on success without
one the list is refetched (`refetched` stands for that fetch result);
on `success` falsy, or on a thrown error, the list is untouched. -/
def labOnSubmit (prev : List LabItem) (res : ServiceResult PostLabResponse)
    (refetched : List LabItem) : List LabItem :=
  match res with
  | .ok r =>
    if r.success then
      match r.lab with
      | some l => l :: prev
      | none => refetched
    else prev
  | _ => prev

/-! ## C8 — `includedTests` normalization (LabOnboarding.tsx
lines 363-371 and 831-840)

Both sites run the same three-stage decode on the field value:

  if (Array.isArray(v)) use v;
  else if (typeof v === "string")
    try { v = JSON.parse(v); }
    catch { v = v.replace(/^\[|\]$/g, "").split(",").map(s => s.trim()).filter(Boolean); }

`JSON.parse` is modelled by a character-exact parser of JSON arrays of
string literals (the shape this field carries when stringified); it
accepts the standard single-character escapes and rejects raw control
characters, as `JSON.parse` does.  `\uXXXX` escapes and non-string
array elements are outside the model. -/

/-- JSON whitespace. -/
def isJsonWs (c : Char) : Bool := c == ' ' || c == '\n' || c == '\r' || c == '\t'

/-- The character denoted by a single-character JSON escape `\c`. -/
def jsonEsc (c : Char) : Option Char :=
  [('"', '"'), ('\\', '\\'), ('/', '/'), ('n', '\n'), ('t', '\t'),
   ('r', '\r'), ('b', Char.ofNat 8), ('f', Char.ofNat 12)].lookup c

/-- Parser state: expecting an item (or `]` when no item has been read),
inside a string literal, after a backslash, between items, or after the
closing bracket. -/
inductive ArrPState where
  | item (acc : List String)
  | instr (acc : List String) (cur : List Char)
  | esc (acc : List String) (cur : List Char)
  | sep (acc : List String)
  | done (acc : List String)

/-- Character-at-a-time parse of the part of a JSON array of strings
that follows the opening bracket. -/
def arrLoop : List Char → ArrPState → Option (List String)
  | [], .done acc => some acc
  | [], _ => none
  | c :: rest, .item acc =>
    if isJsonWs c then arrLoop rest (.item acc)
    else if c == '"' then arrLoop rest (.instr acc [])
    else if c == ']' && acc.isEmpty then arrLoop rest (.done acc)
    else none
  | c :: rest, .instr acc cur =>
    if c == '"' then arrLoop rest (.sep (acc ++ [String.mk cur.reverse]))
    else if c == '\\' then arrLoop rest (.esc acc cur)
    else if c.toNat < 32 then none
    else arrLoop rest (.instr acc (c :: cur))
  | c :: rest, .esc acc cur =>
    match jsonEsc c with
    | some e => arrLoop rest (.instr acc (e :: cur))
    | none => none
  | c :: rest, .sep acc =>
    if isJsonWs c then arrLoop rest (.sep acc)
    else if c == ',' then arrLoop rest (.item acc)
    else if c == ']' then arrLoop rest (.done acc)
    else none
  | c :: rest, .done acc =>
    if isJsonWs c then arrLoop rest (.done acc)
    else none

/-- Leading-whitespace skip and opening bracket of the array parse. -/
def arrStart : List Char → Option (List String)
  | [] => none
  | c :: rest =>
    if isJsonWs c then arrStart rest
    else if c == '[' then arrLoop rest (.item [])
    else none

/-- Model of `JSON.parse` on this field: succeeds exactly on a JSON
array of string literals, returning its elements in order. -/
def parseStringArray (s : String) : Option (List String) := arrStart s.data

/-- Model of `.replace(/^\[|\]$/g, "")`: the regex removes one leading
opening bracket and one trailing closing bracket, wherever present. -/
def stripBrackets (l : List Char) : List Char :=
  let l1 := match l with
    | '[' :: t => t
    | _ => l
  if l1.getLast? == some ']' then l1.dropLast else l1

/-- Model of `String.prototype.split(",")`: split on every comma,
keeping empty pieces. -/
def splitComma (l : List Char) : List (List Char) :=
  l.foldr
    (fun c acc =>
      if c == ',' then [] :: acc
      else
        match acc with
        | h :: t => (c :: h) :: t
        | [] => [[c]])
    [[]]

/-- The catch-branch fallback:
`raw.replace(/^\[|\]$/g, "").split(",").map(s => s.trim()).filter(Boolean)`. -/
def fallbackSplit (s : String) : List String :=
  ((splitComma (stripBrackets s.data)).map (fun cs => String.mk (trimList cs))).filter
    (fun x => !x.data.isEmpty)

/-- The full normalization of an `includedTests` value performed at both
sites of LabOnboarding.tsx: an array is used as is; a string is
`JSON.parse`d, falling back on parse failure to the bracket-stripping
comma split. -/
def normalizeIncludedTests : IncludedTestsWire → List String
  | .arr tests => tests
  | .str raw =>
    match parseStringArray raw with
    | some parsed => parsed
    | none => fallbackSplit raw

/-- `JSON.stringify` of an array of strings, for strings that need no
escaping: the elements quoted, comma-separated, between brackets. -/
def encodeStringsBody : List String → List Char
  | [] => [']']
  | x :: xs =>
    '"' :: x.data ++ '"' ::
      (match xs with
       | [] => [']']
       | _ :: _ => ',' :: encodeStringsBody xs)

/-- `JSON.stringify` of an array of strings (no escapes needed). -/
def jsonStringify (xs : List String) : String := String.mk ('[' :: encodeStringsBody xs)

/-- A character that is emitted verbatim by `JSON.stringify`: not a
quote, not a backslash, not a control character. -/
def PlainChar (c : Char) : Prop := c ≠ '"' ∧ c ≠ '\\' ∧ 32 ≤ c.toNat

/-- A string whose stringification needs no escape sequences. -/
def PlainStr (s : String) : Prop := ∀ c ∈ s.data, PlainChar c

instance : DecidablePred PlainChar := fun c => by
  unfold PlainChar; infer_instance

instance : DecidablePred PlainStr := fun s => by
  unfold PlainStr; infer_instance

/-! ## C9 — Authorization headers (part_000 lines 38-52, part_003
lines 44-60) -/

/-- `getAuthToken` of the axios-based modules: the Capacitor
`Preferences` store read at key `token`, `value ?? null` (part_000
lines 38-41, LabOnboarding.tsx lines 66-69).  `prefs` stands for the
key-value store. -/
def getAuthToken (prefs : String → Option String) : Option String :=
  prefs ("token")

/-- The Authorization value of `axiosWithAuth`:
`token ? \`Bearer ${token}\` : ""` (part_000 line 49). -/
def bearerOrEmpty (token : Option String) : String :=
  if strTruthy token then "Bearer " ++ token.getD "" else ""

/-- The default headers of the client built by `axiosWithAuth` (part_000
lines 43-52, LabOnboarding.tsx lines 71-80). -/
def axiosWithAuthHeaders (prefs : String → Option String) : List (String × String) :=
  [("Content-Type", "application/json"),
   ("Authorization", bearerOrEmpty (getAuthToken prefs))]

/-- `readTokenFromLocalStorage` (part_003 lines 44-47):
`localStorage.getItem("token") || localStorage.getItem("authToken") || null`.
`store` stands for `localStorage`. -/
def readTokenFromLocalStorage (store : String → Option String) : Option String :=
  jsOr (store ("token")) (jsOr (store ("authToken")) none)

/-- The headers of every request built by the partners service (part_003
lines 53-137): `"Content-Type"` always, and
`...(token ? { Authorization: \`Bearer ${token}\` } : {})` — the
Authorization pair is spread in only when the token is truthy. -/
def partnersServiceHeaders (store : String → Option String) : List (String × String) :=
  let token := readTokenFromLocalStorage store
  ("Content-Type", "application/json") ::
    (if strTruthy token then [("Authorization", "Bearer " ++ token.getD "")] else [])

/-! ## C10 — status counts (usePartnerRequests.ts lines 86-94, part_001
lines 278-285) -/

/-- The `counts` object derived from `items`. -/
structure Counts where
  total : Nat
  pending : Nat
  accepted : Nat
  rejected : Nat
deriving DecidableEq, Repr

/-- The `counts` memo:

  total: items.length,
  pending: items.filter((i) => i.status === "PENDING").length,
  accepted: items.filter((i) => i.status === "ACCEPTED").length,
  rejected: items.filter((i) => i.status === "REJECTED").length
-/
def counts (items : List PartnerRequest) : Counts :=
  { total := items.length,
    pending := (items.filter (fun i => i.status == some ("PENDING"))).length,
    accepted := (items.filter (fun i => i.status == some ("ACCEPTED"))).length,
    rejected := (items.filter (fun i => i.status == some ("REJECTED"))).length }

/-- A status value that lands in one of the three buckets. -/
def bucketed (it : PartnerRequest) : Bool :=
  it.status == some ("PENDING") || it.status == some ("ACCEPTED") ||
    it.status == some ("REJECTED")

/-! # Theorems -/

/-! ## C1 -/

theorem listNorm_arr (key : String) (xs : List Json) :
    listNorm key (.arr xs) = xs := rfl

theorem listNorm_obj (key : String) (fields : List (String × Json))
    (xs : List Json) (h : fields.lookup key = some (.arr xs)) :
    listNorm key (.obj fields) = xs := by
  simp [listNorm, Json.getField, h]

theorem listNorm_other (key : String) (body : Json)
    (h1 : ∀ xs, body ≠ .arr xs)
    (h2 : ∀ xs, body.getField key ≠ some (.arr xs)) :
    listNorm key body = [] := by
  cases body with
  | arr xs => exact absurd rfl (h1 xs)
  | null => rfl
  | bool b => rfl
  | num n => rfl
  | str s => rfl
  | obj fields =>
    simp only [listNorm]

/-- Claim C1: the list-normalization functions return the records of a
bare-array body and the records of the named array property of an
object body unchanged and in order, and return the empty sequence on
every other body shape. -/
theorem C1_list_normalization :
    (∀ xs, fetchPromosFromApi (.arr xs) = xs) ∧
    (∀ fields xs, fields.lookup ("promos") = some (.arr xs) →
      fetchPromosFromApi (.obj fields) = xs) ∧
    (∀ body, (∀ xs, body ≠ .arr xs) →
      (∀ xs, body.getField ("promos") ≠ some (.arr xs)) →
      fetchPromosFromApi body = []) ∧
    (∀ xs, fetchLabsFromApi (.arr xs) = xs) ∧
    (∀ fields xs, fields.lookup ("labs") = some (.arr xs) →
      fetchLabsFromApi (.obj fields) = xs) ∧
    (∀ body, (∀ xs, body ≠ .arr xs) →
      (∀ xs, body.getField ("labs") ≠ some (.arr xs)) →
      fetchLabsFromApi body = []) := by
  refine ⟨fun xs => rfl, fun fields xs h => listNorm_obj _ _ _ h,
    fun body h1 h2 => listNorm_other _ _ h1 h2,
    fun xs => rfl, fun fields xs h => listNorm_obj _ _ _ h,
    fun body h1 h2 => listNorm_other _ _ h1 h2⟩

/-- Witness for C1: a concrete object body with a `promos` array is
normalized to its records, and a concrete non-array, non-object body is
normalized to the empty sequence. -/
theorem C1_witness :
    fetchPromosFromApi (.obj [(("promos"), Json.arr [Json.str ("p1")])]) =
      [Json.str ("p1")] ∧
    fetchLabsFromApi (.str ("oops")) = [] := by
  refine ⟨C1_list_normalization.2.1 _ _ (by rfl), ?_⟩
  exact C1_list_normalization.2.2.2.2.2 _ (fun xs h => Json.noConfusion h)
    (fun xs h => Option.noConfusion h)

/-! ## C2 -/

theorem pageItems_eq_drop_take {α : Type} (f : List α) (k : Nat) :
    pageItems f (k + 1) = (f.drop (pageSize * k)).take pageSize := by
  have e1 : (k + 1 - 1) * pageSize = pageSize * k := by unfold pageSize; omega
  have e2 : (k + 1) * pageSize - (k + 1 - 1) * pageSize = pageSize := by
    unfold pageSize; omega
  unfold pageItems jsSlice
  rw [e2, e1]

theorem pages_take {α : Type} (f : List α) (k : Nat) :
    ((List.range k).map (fun i => pageItems f (i + 1))).flatten =
      f.take (pageSize * k) := by
  induction k with
  | zero => simp
  | succ k ih =>
    rw [List.range_succ, List.map_append, List.flatten_append, ih]
    simp only [List.map_cons, List.map_nil, List.flatten_cons, List.flatten_nil,
      List.append_nil]
    rw [pageItems_eq_drop_take, ← List.take_add, Nat.mul_succ]

theorem length_le_pageSize_mul_totalPages {α : Type} (f : List α) :
    f.length ≤ pageSize * totalPages f := by
  unfold totalPages pageSize
  rw [Nat.max_def]
  split <;> omega

/-- Claim C2: for every filtered list and page number, the page slice has
at most `pageSize` elements; the slices of pages 1 through `totalPages`
concatenate, in order, to the filtered list; and `totalPages` is the
ceiling of `length / pageSize` floored at 1 (characterized by the last
four conjuncts). -/
theorem C2_pagination {α : Type} (f : List α) :
    (∀ page, (pageItems f page).length ≤ pageSize) ∧
    pagesConcat f = f ∧
    totalPages f = max 1 ((f.length + pageSize - 1) / pageSize) ∧
    1 ≤ totalPages f ∧
    f.length ≤ pageSize * totalPages f ∧
    (f.length = 0 → totalPages f = 1) ∧
    (0 < f.length → pageSize * (totalPages f - 1) < f.length) := by
  refine ⟨?_, ?_, rfl, ?_, length_le_pageSize_mul_totalPages f, ?_, ?_⟩
  · intro page
    unfold pageItems jsSlice pageSize
    simp only [List.length_take, List.length_drop]
    omega
  · rw [pagesConcat, pages_take]
    exact List.take_of_length_le (length_le_pageSize_mul_totalPages f)
  · unfold totalPages
    omega
  · intro h
    unfold totalPages pageSize
    rw [h, Nat.max_def]
    split <;> omega
  · intro h
    unfold totalPages pageSize
    rw [Nat.max_def]
    split <;> omega

/-- Witness for C2: the ceiling characterization evaluated on a concrete
9-element list and on the empty list. -/
theorem C2_witness :
    (0 < (List.range 9).length ∧
      pageSize * (totalPages (List.range 9) - 1) < (List.range 9).length) ∧
    (([] : List Nat).length = 0 ∧ totalPages ([] : List Nat) = 1) :=
  ⟨⟨by decide, (C2_pagination (List.range 9)).2.2.2.2.2.2 (by decide)⟩,
   ⟨rfl, (C2_pagination ([] : List Nat)).2.2.2.2.2.1 rfl⟩⟩

/-! ## C3 -/

theorem nil_infix_any {α : Type} (l : List α) : [] <:+: l := ⟨[], l, by simp⟩

theorem matchesQuery_of_empty (q0 : String) (h : q0.data = [])
    (it : PartnerRequest) : matchesQuery q0 it = true := by
  unfold matchesQuery strContains
  rw [h]
  simp [nil_infix_any]

theorem filter_specMatches_all (list : List PartnerRequest) (query : String) :
    (if (jsToLower (jsTrim query)).data.isEmpty then list
     else list.filter (matchesQuery (jsToLower (jsTrim query)))) =
      list.filter (specMatches (jsTrim query)) := by
  by_cases h : (jsToLower (jsTrim query)).data.isEmpty
  · rw [if_pos h]
    symm
    apply List.filter_eq_self.mpr
    intro a _
    exact matchesQuery_of_empty (jsToLower (jsTrim query))
      (by simpa using h) a
  · rw [if_neg h]
    rfl

theorem filtered_eq (items : List PartnerRequest) (query selectedStatus : String) :
    filtered items query selectedStatus =
      (if selectedStatus ≠ "ALL" then
        items.filter (fun it => it.status == some selectedStatus)
      else items).filter (specMatches (jsTrim query)) := by
  unfold filtered
  exact filter_specMatches_all _ query

/-- Counterexample to C3 as stated: with the query `" x "` (which the
code trims before matching) and a single record whose shop field is
`"axb"`, the derived filtered list keeps the record, but the record
does not contain the query `" x "` case-insensitively in any field. -/
theorem C3_counterexample :
    filtered [({ id := "1", shopName := some ("axb") } : PartnerRequest)]
        (" x ") ("ALL") ≠
      [({ id := "1", shopName := some ("axb") } : PartnerRequest)].filter
        (specMatches (" x ")) := by
  decide

/-- Claim C3 (amended): the derived filtered list is exactly the ordered
subset of records whose name, email, mobile or shop field contains the
whitespace-trimmed query case-insensitively; a non-ALL status tab first
restricts to the records whose status equals the tab, and with an empty
query tab PENDING yields exactly the records with status PENDING. -/
theorem C3_filtering (items : List PartnerRequest) (query selectedStatus : String) :
    filtered items query ("ALL") = items.filter (specMatches (jsTrim query)) ∧
    (selectedStatus ≠ "ALL" →
      filtered items query selectedStatus =
        (items.filter (fun it => it.status == some selectedStatus)).filter
          (specMatches (jsTrim query))) ∧
    filtered items ("") ("PENDING") =
      items.filter (fun it => it.status == some ("PENDING")) := by
  refine ⟨?_, ?_, ?_⟩
  · rw [filtered_eq, if_neg (fun h => h rfl)]
  · intro h
    rw [filtered_eq, if_pos h]
  · rw [filtered_eq, if_pos (by decide)]
    apply List.filter_eq_self.mpr
    intro a _
    exact matchesQuery_of_empty (jsToLower (jsTrim (""))) (by decide) a

/-- Witness for C3: the status-tab conjunct applied to a concrete
pending record and query. -/
theorem C3_witness :
    (("PENDING" : String) ≠ "ALL") ∧
    filtered [({ id := "2", firstName := some ("Asha"),
                 status := some ("PENDING") } : PartnerRequest)]
        ("ash") ("PENDING") =
      ([({ id := "2", firstName := some ("Asha"),
           status := some ("PENDING") } : PartnerRequest)].filter
        (fun it => it.status == some ("PENDING"))).filter
          (specMatches (jsTrim ("ash"))) :=
  ⟨by decide,
   (C3_filtering [{ id := "2", firstName := some ("Asha"),
                    status := some ("PENDING") }] ("ash") ("PENDING")).2.1
     (by decide)⟩

/-! ## C4 -/

/-- Claim C4: when ids are unique and the target id is present, a
successful confirmed approve sets exactly that record's status to
ACCEPTED (reject to REJECTED) and leaves every other record, and every
other field of the target record, unchanged: the updated list is the
old list with a single position overwritten by a status-only update. -/
theorem C4_single_record_update (items : List PartnerRequest) (id : String)
    (ty : ActionType) (i : Nat) (hi : i < items.length)
    (hid : items[i].id = id)
    (hnd : (items.map PartnerRequest.id).Nodup) :
    applyActionToItems items id ty =
      items.set i { items[i] with status := some (statusFor ty) } := by
  apply List.ext_getElem
  · simp [applyActionToItems]
  · intro j hj1 hj2
    simp only [applyActionToItems, List.getElem_map, List.getElem_set]
    by_cases hji : i = j
    · subst hji
      simp [hid]
    · rw [if_neg hji]
      have hj : j < items.length := by simpa using hj2
      have hne : items[j].id ≠ id := by
        intro he
        apply hji
        have hmi : i < (items.map PartnerRequest.id).length := by simpa using hi
        have hmj : j < (items.map PartnerRequest.id).length := by simpa using hj
        have h1 : (items.map PartnerRequest.id)[i] =
            (items.map PartnerRequest.id)[j] := by
          simp only [List.getElem_map]
          rw [hid, he]
        exact hnd.getElem_inj_iff.mp h1
      simp [hne]

/-- Witness for C4: approving id `a` in a concrete two-record list flips
exactly the first record's status to ACCEPTED. -/
theorem C4_witness :
    applyActionToItems
        [({ id := "a", status := some ("PENDING") } : PartnerRequest),
         { id := "b", status := some ("PENDING") }] ("a") (.approve) =
      [({ id := "a", status := some ("ACCEPTED") } : PartnerRequest),
       { id := "b", status := some ("PENDING") }] := by
  have h := C4_single_record_update
      [({ id := "a", status := some ("PENDING") } : PartnerRequest),
       { id := "b", status := some ("PENDING") }] ("a") (.approve) 0
      (by decide) (by decide) (by decide)
  exact h.trans (by decide)

/-! ## C5 -/

/-- Counterexample to C5 as stated: the cancel button of the hook-based
page (partnersRequest.tsx line 497) closes the dialog but leaves
`pendingAction` set, so the confirmation state is not fully cleared on
that cancel path. -/
theorem C5_counterexample :
    (cancelConfirmHookPage
        { items := [], actionLoadingId := none, confirmLoading := false,
          confirmOpen := true,
          pendingAction := some { id := "1", type := .approve } }).pendingAction ≠
      none := by
  decide

/-- Claim C5 (amended): after `performAction` completes — on success, on
a `success: false` response, on a falsy response, and on a thrown
error — the in-flight state is always cleared (`actionLoadingId` null,
`confirmLoading`, `confirmOpen` false, `pendingAction` null).  On the
cancel path no action fires (the items are untouched): the
PartnersRequestPage cancel handler clears both `confirmOpen` and
`pendingAction`, while the hook-based page's cancel handler clears only
`confirmOpen`, leaving `pendingAction` as it was. -/
theorem C5_state_clearing (s : HookState) (id : String) (ty : ActionType)
    (res : ServiceResult ActionResp) :
    ((performAction s id ty res).actionLoadingId = none ∧
     (performAction s id ty res).confirmLoading = false ∧
     (performAction s id ty res).confirmOpen = false ∧
     (performAction s id ty res).pendingAction = none) ∧
    ((cancelConfirmPart001 s).confirmOpen = false ∧
     (cancelConfirmPart001 s).pendingAction = none ∧
     (cancelConfirmPart001 s).items = s.items) ∧
    ((cancelConfirmHookPage s).confirmOpen = false ∧
     (cancelConfirmHookPage s).items = s.items ∧
     (cancelConfirmHookPage s).pendingAction = s.pendingAction) :=
  ⟨⟨rfl, rfl, rfl, rfl⟩, ⟨rfl, rfl, rfl⟩, ⟨rfl, rfl, rfl⟩⟩

/-! ## C6 -/

/-- Counterexample to C6 as stated: on a successful submission the hook
builds the inserted record's `firstName` from the submitted form, not
from the server-returned request, so when the two differ the inserted
record does not match the server record's fields. -/
theorem C6_counterexample :
    ((onboardSubmit []
        { firstName := "Form", email := "form@x", password := "pw",
          mobile := "9", partnerType := "chemist" }
        (.ok { success := true,
               request := some { id := some ("sid"), email := some ("srv@x"),
                                 status := some ("PENDING"),
                                 firstName := some ("Server") } })
        ("rnd0") ("now0")).head?.map PartnerRequest.firstName) =
      some (some ("Form")) ∧
    ({ id := some ("sid"), email := some ("srv@x"), status := some ("PENDING"),
       firstName := some ("Server") } : ServerRequest).firstName =
      some ("Server") ∧
    (some ("Form") : Option String) ≠ some ("Server") := by
  refine ⟨by decide, rfl, by decide⟩

/-- Claim C6 (amended): on a successful creation the local list gains
exactly one record, inserted at index 0, with the prior records
following unchanged in order.  On the lab page the inserted record is
the server-returned lab verbatim; on the promo page its fields all come
from the server-returned promo (`amount` coerced with a 0 default, `id`
from `id || _id`); in the partner hook `id`, `email` and `status` come
from the server-returned request (with the code's fallbacks) while the
remaining populated fields come from the submitted form, and
`createdAt` is the client-side timestamp. -/
theorem C6_optimistic_insert (prev : List PartnerRequest) (data : OnboardForm)
    (msg : Option String) (req : Option ServerRequest) (rand now : String)
    (promos : List PromoItem) (pm : Option String) (pr : ServerPromo)
    (labs refetched : List LabItem) (lm : Option String) (lab : LabItem) :
    (onboardSubmit prev data (.ok { success := true, message := msg, request := req })
        rand now = mkNewRequest data req rand now :: prev) ∧
    ((onboardSubmit prev data (.ok { success := true, message := msg, request := req })
        rand now).length = prev.length + 1) ∧
    ((onboardSubmit prev data (.ok { success := true, message := msg, request := req })
        rand now).tail = prev) ∧
    ((mkNewRequest data req rand now).firstName = some data.firstName ∧
     (mkNewRequest data req rand now).lastName = data.lastName ∧
     (mkNewRequest data req rand now).mobile = some data.mobile ∧
     (mkNewRequest data req rand now).partnerType = some data.partnerType ∧
     (mkNewRequest data req rand now).shopName = data.shopName ∧
     (mkNewRequest data req rand now).pincode = data.pincode ∧
     (mkNewRequest data req rand now).address = data.address ∧
     (mkNewRequest data req rand now).email = req.bind ServerRequest.email ∧
     (mkNewRequest data req rand now).status =
       some (jsOrD (req.bind ServerRequest.status) ("PENDING")) ∧
     (mkNewRequest data req rand now).id =
       jsOrD (req.bind ServerRequest.id)
         (jsOrD (req.bind ServerRequest.mongoId) rand) ∧
     (mkNewRequest data req rand now).createdAt = some now) ∧
    (promoOnSubmit promos (.ok { success := true, message := pm, promo := some pr }) =
        mkPromoItem pr :: promos) ∧
    ((mkPromoItem pr).id = jsOr pr.id pr.mongoId ∧
     (mkPromoItem pr).code = pr.code ∧
     (mkPromoItem pr).description = pr.description ∧
     (mkPromoItem pr).discountType = pr.discountType ∧
     (mkPromoItem pr).amount = pr.amount.getD 0 ∧
     (mkPromoItem pr).maxDiscount = pr.maxDiscount ∧
     (mkPromoItem pr).minOrderAmount = pr.minOrderAmount ∧
     (mkPromoItem pr).startsAt = pr.startsAt ∧
     (mkPromoItem pr).expiresAt = pr.expiresAt ∧
     (mkPromoItem pr).isActive = pr.isActive ∧
     (mkPromoItem pr).usageLimit = pr.usageLimit ∧
     (mkPromoItem pr).usedCount = pr.usedCount ∧
     (mkPromoItem pr).createdAt = pr.createdAt) ∧
    (labOnSubmit labs (.ok { success := true, message := lm, lab := some lab })
        refetched = lab :: labs) :=
  ⟨rfl, rfl, rfl,
   ⟨rfl, rfl, rfl, rfl, rfl, rfl, rfl, rfl, rfl, rfl, rfl⟩,
   rfl,
   ⟨rfl, rfl, rfl, rfl, rfl, rfl, rfl, rfl, rfl, rfl, rfl, rfl, rfl⟩,
   rfl⟩

/-! ## C7 -/

/-- Claim C7: every failing mutation — a `success: false` body, a falsy
body, or a thrown transport error, for approve / reject and for each of
the three create paths — leaves the in-memory list exactly as it was. -/
theorem C7_failure_frame (s : HookState) (id : String) (ty : ActionType)
    (m : Option String) (prev : List PartnerRequest) (data : OnboardForm)
    (req : Option ServerRequest) (rand now : String)
    (promos : List PromoItem) (pm : Option String) (pr : Option ServerPromo)
    (labs refetched : List LabItem) (lm : Option String) (lab : Option LabItem) :
    (performAction s id ty (.ok { success := false, message := m })).items = s.items ∧
    (performAction s id ty .missing).items = s.items ∧
    (performAction s id ty .thrown).items = s.items ∧
    onboardSubmit prev data (.ok { success := false, message := m, request := req })
      rand now = prev ∧
    onboardSubmit prev data .missing rand now = prev ∧
    onboardSubmit prev data .thrown rand now = prev ∧
    promoOnSubmit promos (.ok { success := false, message := pm, promo := pr }) =
      promos ∧
    promoOnSubmit promos .missing = promos ∧
    promoOnSubmit promos .thrown = promos ∧
    labOnSubmit labs (.ok { success := false, message := lm, lab := lab })
      refetched = labs ∧
    labOnSubmit labs .missing refetched = labs ∧
    labOnSubmit labs .thrown refetched = labs := by
  refine ⟨rfl, rfl, rfl, rfl, rfl, rfl, ?_, rfl, rfl, ?_, rfl, rfl⟩
  · cases pr <;> rfl
  · cases lab <;> rfl

/-! ## C8 -/

theorem arrLoop_instr : ∀ (x : List Char), (∀ c ∈ x, PlainChar c) →
    ∀ (rest : List Char) (acc : List String) (cur : List Char),
    arrLoop (x ++ '"' :: rest) (.instr acc cur) =
      arrLoop rest (.sep (acc ++ [String.mk (cur.reverse ++ x)]))
  | [], _, rest, acc, cur => by
    simp [arrLoop]
  | c :: x, hx, rest, acc, cur => by
    obtain ⟨h1, h2, h3⟩ := hx c (by simp)
    have hrest : ∀ d ∈ x, PlainChar d := fun d hd => hx d (by simp [hd])
    have e1 : (c == '"') = false := by simpa using h1
    have e2 : (c == '\\') = false := by simpa using h2
    show arrLoop (c :: (x ++ '"' :: rest)) (.instr acc cur) = _
    rw [arrLoop, e1, e2]
    simp only [Bool.false_eq_true, if_false]
    rw [if_neg (by omega : ¬ c.toNat < 32)]
    rw [arrLoop_instr x hrest rest acc (c :: cur)]
    simp

theorem arrLoop_items : ∀ (xs : List String), (∀ s ∈ xs, PlainStr s) →
    ∀ (acc : List String), (xs = [] → acc = []) →
    arrLoop (encodeStringsBody xs) (.item acc) = some (acc ++ xs)
  | [], _, acc, hacc => by
    have h : acc = [] := hacc rfl
    subst h
    rfl
  | x :: xs, hxs, acc, _ => by
    have hx : ∀ c ∈ x.data, PlainChar c := hxs x (by simp)
    have hxs' : ∀ s ∈ xs, PlainStr s := fun s hs => hxs s (by simp [hs])
    cases xs with
    | nil =>
      have step1 : arrLoop (encodeStringsBody [x]) (.item acc) =
          arrLoop (x.data ++ '"' :: [']']) (.instr acc []) := rfl
      rw [step1, arrLoop_instr x.data hx _ acc []]
      rfl
    | cons y ys =>
      have step1 : arrLoop (encodeStringsBody (x :: y :: ys)) (.item acc) =
          arrLoop (x.data ++ '"' :: (',' :: encodeStringsBody (y :: ys)))
            (.instr acc []) := rfl
      rw [step1, arrLoop_instr x.data hx _ acc []]
      have step2 : arrLoop (',' :: encodeStringsBody (y :: ys))
          (.sep (acc ++ [String.mk ([].reverse ++ x.data)])) =
          arrLoop (encodeStringsBody (y :: ys))
            (.item (acc ++ [String.mk ([].reverse ++ x.data)])) := rfl
      rw [step2, arrLoop_items (y :: ys) hxs' _
        (fun h => absurd h (List.cons_ne_nil y ys))]
      simp

theorem parse_roundtrip (xs : List String) (h : ∀ s ∈ xs, PlainStr s) :
    parseStringArray (jsonStringify xs) = some xs := by
  show arrStart ('[' :: encodeStringsBody xs) = some xs
  show arrLoop (encodeStringsBody xs) (.item []) = some xs
  simpa using arrLoop_items xs h [] (fun _ => rfl)

/-- Claim C8: an `includedTests` value arriving as an array of strings is
kept as that same ordered sequence; a value arriving as the JSON
stringification of an array of strings decodes back to the same ordered
sequence; and a string on which the JSON parse fails is decoded by the
fallback — stripping the surrounding brackets and splitting on commas
(trimming each piece and dropping empties) — still yielding an ordered
sequence of strings. -/
theorem C8_includedTests_normalization :
    (∀ tests, normalizeIncludedTests (.arr tests) = tests) ∧
    (∀ xs, (∀ s ∈ xs, PlainStr s) →
      normalizeIncludedTests (.str (jsonStringify xs)) = xs) ∧
    (∀ raw, parseStringArray raw = none →
      normalizeIncludedTests (.str raw) = fallbackSplit raw) := by
  refine ⟨fun tests => rfl, ?_, ?_⟩
  · intro xs h
    show (match parseStringArray (jsonStringify xs) with
          | some parsed => parsed
          | none => fallbackSplit (jsonStringify xs)) = xs
    rw [parse_roundtrip xs h]
  · intro raw h
    show (match parseStringArray raw with
          | some parsed => parsed
          | none => fallbackSplit raw) = fallbackSplit raw
    rw [h]

/-- Witness for C8: a concrete stringified array round-trips, a concrete
non-JSON string takes the bracket-stripping comma-split fallback, and
that fallback evaluates to the expected sequence. -/
theorem C8_witness :
    normalizeIncludedTests (.str (jsonStringify [("CBC"), ("ESR w")])) =
      [("CBC"), ("ESR w")] ∧
    normalizeIncludedTests (.str ("[CBC, ESR]")) = fallbackSplit ("[CBC, ESR]") ∧
    fallbackSplit ("[CBC, ESR]") = [("CBC"), ("ESR")] :=
  ⟨C8_includedTests_normalization.2.1 _ (by decide),
   C8_includedTests_normalization.2.2 _ (by decide),
   by decide⟩

/-! ## C9 -/

/-- Counterexample to C9 as stated: with no stored token, the
fetch-based partners service spreads in no Authorization pair at all —
the built headers carry no Authorization entry, not an empty one. -/
theorem C9_counterexample :
    (partnersServiceHeaders (fun _ => none)).lookup ("Authorization") = none ∧
    (none : Option String) ≠ some ("") := by
  exact ⟨rfl, by decide⟩

/-- Claim C9 (amended): with a (non-empty) token stored under key
`token`, both client styles send `Authorization: Bearer <token>` — the
axios modules reading the preferences key `token`, the partners service
reading local-storage key `token` with legacy fallback `authToken`.
With no token, the axios modules send an empty Authorization header,
while the partners service omits the header entirely. -/
theorem C9_auth_headers (prefs store : String → Option String) (t u : String) :
    (prefs ("token") = some t → t.data.isEmpty = false →
      (axiosWithAuthHeaders prefs).lookup ("Authorization") =
        some ("Bearer " ++ t)) ∧
    (prefs ("token") = none →
      (axiosWithAuthHeaders prefs).lookup ("Authorization") = some ("")) ∧
    (store ("token") = some t → t.data.isEmpty = false →
      (partnersServiceHeaders store).lookup ("Authorization") =
        some ("Bearer " ++ t)) ∧
    (strTruthy (store ("token")) = false → store ("authToken") = some u →
      u.data.isEmpty = false →
      (partnersServiceHeaders store).lookup ("Authorization") =
        some ("Bearer " ++ u)) ∧
    (strTruthy (store ("token")) = false →
      strTruthy (store ("authToken")) = false →
      (partnersServiceHeaders store).lookup ("Authorization") = none) := by
  refine ⟨?_, ?_, ?_, ?_, ?_⟩
  · intro h ht
    unfold axiosWithAuthHeaders getAuthToken bearerOrEmpty
    rw [h]
    simp [strTruthy, ht, List.lookup]
  · intro h
    unfold axiosWithAuthHeaders getAuthToken bearerOrEmpty
    rw [h]
    simp [strTruthy, List.lookup]
  · intro h ht
    unfold partnersServiceHeaders readTokenFromLocalStorage jsOr
    rw [h]
    simp [strTruthy, ht, List.lookup]
  · intro h0 h ht
    unfold partnersServiceHeaders readTokenFromLocalStorage jsOr
    rw [h, h0]
    simp [strTruthy, ht, List.lookup]
  · intro h0 h1
    unfold partnersServiceHeaders readTokenFromLocalStorage jsOr
    rw [h0, h1]
    simp [strTruthy, List.lookup]

/-- Witness for C9: a concrete store holding only `token`, and a
concrete store holding only the legacy `authToken`. -/
theorem C9_witness :
    (axiosWithAuthHeaders
        (fun k => if k = "token" then some ("T") else none)).lookup
      ("Authorization") = some ("Bearer " ++ "T") ∧
    (partnersServiceHeaders
        (fun k => if k = "authToken" then some ("U") else none)).lookup
      ("Authorization") = some ("Bearer " ++ "U") :=
  ⟨(C9_auth_headers (fun k => if k = "token" then some ("T") else none)
      (fun _ => none) ("T") ("U")).1 (by decide) (by decide),
   (C9_auth_headers (fun _ => none)
      (fun k => if k = "authToken" then some ("U") else none)
      ("T") ("U")).2.2.2.1 (by decide) (by decide) (by decide)⟩

/-! ## C10 -/

theorem countP_sum_of_exclusive (p1 p2 p3 : PartnerRequest → Bool)
    (hex : ∀ a, (if p1 a then 1 else 0) + (if p2 a then 1 else 0) +
        (if p3 a then 1 else 0) =
      if p1 a || p2 a || p3 a then 1 else 0) :
    ∀ l : List PartnerRequest,
      l.countP p1 + l.countP p2 + l.countP p3 =
        l.countP (fun a => p1 a || p2 a || p3 a)
  | [] => rfl
  | a :: l => by
    have ih := countP_sum_of_exclusive p1 p2 p3 hex l
    have ha := hex a
    simp only [List.countP_cons]
    omega

theorem status_buckets_exclusive (a : PartnerRequest) :
    (if a.status == some ("PENDING") then 1 else 0) +
      (if a.status == some ("ACCEPTED") then 1 else 0) +
      (if a.status == some ("REJECTED") then 1 else 0) =
    if bucketed a then 1 else 0 := by
  unfold bucketed
  rcases h : a.status with - | s
  · decide
  · simp only [h, Option.some.injEq, beq_iff_eq]
    by_cases h1 : s = "PENDING" <;> by_cases h2 : s = "ACCEPTED" <;>
      by_cases h3 : s = "REJECTED" <;> simp_all

/-- Claim C10: `counts.total` is the list length, each status bucket
counts the records with exactly that status, the three buckets sum to
at most the total, and they sum to exactly the total precisely when
every record's status is PENDING, ACCEPTED or REJECTED. -/
theorem C10_counts (items : List PartnerRequest) :
    (counts items).total = items.length ∧
    (counts items).pending =
      items.countP (fun i => i.status == some ("PENDING")) ∧
    (counts items).accepted =
      items.countP (fun i => i.status == some ("ACCEPTED")) ∧
    (counts items).rejected =
      items.countP (fun i => i.status == some ("REJECTED")) ∧
    (counts items).pending + (counts items).accepted + (counts items).rejected ≤
      (counts items).total ∧
    ((counts items).pending + (counts items).accepted +
        (counts items).rejected = (counts items).total ↔
      ∀ it ∈ items, it.status = some ("PENDING") ∨
        it.status = some ("ACCEPTED") ∨ it.status = some ("REJECTED")) := by
  have hp : (counts items).pending =
      items.countP (fun i => i.status == some ("PENDING")) :=
    (List.countP_eq_length_filter _ items).symm
  have hac : (counts items).accepted =
      items.countP (fun i => i.status == some ("ACCEPTED")) :=
    (List.countP_eq_length_filter _ items).symm
  have hr : (counts items).rejected =
      items.countP (fun i => i.status == some ("REJECTED")) :=
    (List.countP_eq_length_filter _ items).symm
  have hsum := countP_sum_of_exclusive _ _ _ status_buckets_exclusive items
  have hb : items.countP (fun a => a.status == some ("PENDING") ||
      a.status == some ("ACCEPTED") || a.status == some ("REJECTED")) =
      items.countP bucketed := by
    unfold bucketed
    rfl
  have htot : (counts items).total = items.length := rfl
  refine ⟨rfl, hp, hac, hr, ?_, ?_⟩
  · rw [hp, hac, hr, htot, hsum, hb]
    exact List.countP_le_length bucketed
  · rw [hp, hac, hr, htot, hsum, hb, List.countP_eq_length]
    unfold bucketed
    simp [or_assoc]

/-- Witness for C10: the bucket-sum equality applied to a concrete list
whose statuses all lie in the three buckets. -/
theorem C10_witness :
    (counts [({ id := "1", status := some ("PENDING") } : PartnerRequest),
             { id := "2", status := some ("ACCEPTED") }]).pending +
      (counts [({ id := "1", status := some ("PENDING") } : PartnerRequest),
               { id := "2", status := some ("ACCEPTED") }]).accepted +
      (counts [({ id := "1", status := some ("PENDING") } : PartnerRequest),
               { id := "2", status := some ("ACCEPTED") }]).rejected =
    (counts [({ id := "1", status := some ("PENDING") } : PartnerRequest),
             { id := "2", status := some ("ACCEPTED") }]).total :=
  (C10_counts [{ id := "1", status := some ("PENDING") },
               { id := "2", status := some ("ACCEPTED") }]).2.2.2.2.2.mpr
    (by decide)
